import Mathlib

/-!
Shallow embedding of the statement-to-report assembly engine of this
repository (src/Colab_Q_A_fin_re.py and src/financial_report_generator.py).

Modelling conventions:
* A Python/numpy float is `Option ℚ`: `none` is NaN (the "missing" value
  produced by pandas for absent periods), `some q` an ordinary number.
  NaN comparisons follow IEEE semantics: `NaN == 0` is false and
  `NaN != 0` is true; any arithmetic on NaN yields NaN.
* A pandas DataFrame holding one financial statement is a `Table`: an
  association list from row label (line-item name) to the row's values,
  ordered most recent first.
* Writing to a worksheet cell is recorded as a `Write` carrying the
  column slot, the value and the number-format tag applied afterwards.
  An out-of-bounds numpy index access (IndexError) aborts the remaining
  statements of the enclosing `try` block while keeping the writes
  already made, which is exactly what the source's `try/except` does.
-/

/-- Python float addition: NaN propagates. -/
def pyAdd : Option ℚ → Option ℚ → Option ℚ
  | some a, some b => some (a + b)
  | _, _ => none

/-- Python float subtraction: NaN propagates. -/
def pySub : Option ℚ → Option ℚ → Option ℚ
  | some a, some b => some (a - b)
  | _, _ => none

/-- Python float division (only reached with a divisor that is either
NaN or already checked nonzero): NaN propagates. -/
def pyDiv : Option ℚ → Option ℚ → Option ℚ
  | some a, some b => some (a / b)
  | _, _ => none

/-- The Python test `x != 0` on a float: true for NaN. -/
def pyNeZero : Option ℚ → Bool
  | some q => decide (q ≠ 0)
  | none => true

/-- Rounding to the nearest integer with ties to even: the rounding used
by Python's `round` and by the `,.0f` format specifier. -/
def roundHalfEven (q : ℚ) : ℤ :=
  if q - q.floor < 1/2 then q.floor
  else if (1:ℚ)/2 < q - q.floor then q.floor + 1
  else if q.floor % 2 = 0 then q.floor else q.floor + 1

/-- Python `round(x, 2)`. -/
def round2 (q : ℚ) : ℚ := (roundHalfEven (q * 100) : ℚ) / 100

/-- Groups of three characters, used for thousands separation
(input is the digit list least-significant first). -/
def chunk3 : List Char → List (List Char)
  | [] => []
  | a :: b :: c :: rest => [a, b, c] :: chunk3 rest
  | l => [l]

/-- Decimal digits of a natural number with `,` as thousands separator,
as produced by Python's `,.0f` format on the rounded magnitude. -/
def commaGroup (n : Nat) : String :=
  String.mk
    (List.intercalate [',']
      (((chunk3 (Nat.toDigits 10 n).reverse).map List.reverse).reverse))

/-- One statement table: line-item name to values, most recent first. -/
abbrev Table := List (String × List (Option ℚ))

/-- Lookup of a row by its line-item name (the `name in df.index` /
`df.loc[name]` pair of the source). -/
def lookupRow : Table → String → Option (List (Option ℚ))
  | [], _ => none
  | (k, v) :: rest, name => if k = name then some v else lookupRow rest name

/-- Number-format tag attached to a worksheet cell:
`general` is openpyxl's default, `pct2` is `'0.00%'`, `plain` is `'0.0'`,
`pct1` is `'0.0%'`. -/
inductive NumFmt where
  | general
  | pct2
  | plain
  | pct1
deriving DecidableEq

/-- The value stored in a worksheet cell: a string (currency formatting
happens before the write) or a raw float (possibly NaN). -/
inductive Cell where
  | str (s : String)
  | num (v : Option ℚ)
deriving DecidableEq

/-- A recorded cell write: column slot within the row (0 ‥ 5 stand for
the six column parameters `col1` ‥ `col6` of `_add_quarterly_data`),
value, and the number format applied after the write. -/
structure Write where
  col : Nat
  cell : Cell
  fmt : NumFmt
deriving DecidableEq

namespace Colab

/-- Embeds `_calculate_pct_change` (src/Colab_Q_A_fin_re.py lines
623-627): `if previous == 0: return 0` then
`return (current - previous) / abs(previous)`.  `NaN == 0` is false, so
a NaN `previous` falls through to the division, which yields NaN. -/
def pctChange (current previous : Option ℚ) : Option ℚ :=
  if previous = some 0 then some 0
  else
    match current, previous with
    | some c, some p => some ((c - p) / |p|)
    | _, _ => none

/-- Embeds `_format_currency` (src/Colab_Q_A_fin_re.py lines 612-621):
`"$0"` for NaN or 0, `"$({abs(value):,.0f})"` for negatives,
`"${value:,.0f}"` otherwise. -/
def formatCurrency : Option ℚ → String
  | none => "$0"
  | some v =>
    if v = 0 then "$0"
    else if v < 0 then "$(" ++ commaGroup (roundHalfEven |v|).toNat ++ ")"
    else "$" ++ commaGroup (roundHalfEven v).toNat

/-- Embeds the number-format choice for a delta cell
(src/Colab_Q_A_fin_re.py lines 400, 405, 427, 432):
`'0.00%' if abs(pct) < 10 else '0.0'`.  `abs(NaN) < 10` is false, so a
NaN delta gets the plain format. -/
def deltaFmt : Option ℚ → NumFmt
  | some q => if |q| < 10 then NumFmt.pct2 else NumFmt.plain
  | none => NumFmt.plain

/-- The write sequence of the `try` body of `_add_quarterly_data` /
`_add_annual_data` for the (at most 3) period values of one row.  The
three value writes go to slots 0, 2, 4 and the two delta writes to
slots 1, 3.  With fewer than 3 values the access `values[k]` raises an
IndexError that the enclosing `except` swallows, so the writes already
made stay and everything after the failing access (including both delta
writes) is skipped. -/
def rowWrites : List (Option ℚ) → List Write
  | [] => []
  | [v0] => [⟨0, Cell.str (formatCurrency v0), NumFmt.general⟩]
  | [v0, v1] =>
      [⟨0, Cell.str (formatCurrency v0), NumFmt.general⟩,
       ⟨2, Cell.str (formatCurrency v1), NumFmt.general⟩]
  | v0 :: v1 :: v2 :: _ =>
      [⟨0, Cell.str (formatCurrency v0), NumFmt.general⟩,
       ⟨2, Cell.str (formatCurrency v1), NumFmt.general⟩,
       ⟨4, Cell.str (formatCurrency v2), NumFmt.general⟩,
       ⟨1, Cell.num (pctChange v0 v1), deltaFmt (pctChange v0 v1)⟩,
       ⟨3, Cell.num (pctChange v1 v2), deltaFmt (pctChange v1 v2)⟩]

/-- Embeds `_add_quarterly_data` (src/Colab_Q_A_fin_re.py lines 383-408):
returns immediately (no writes) when the table is `None` or the item is
not a key; otherwise takes `values[:3]` and performs the writes of
`rowWrites`. -/
def addQuarterlyData (df : Option Table) (field : String) : List Write :=
  match df with
  | none => []
  | some t =>
    match lookupRow t field with
    | none => []
    | some vs => rowWrites (vs.take 3)

/-- Embeds `_add_annual_data` (src/Colab_Q_A_fin_re.py lines 410-435),
whose body is identical to `_add_quarterly_data` up to the concrete
column letters. -/
def addAnnualData (df : Option Table) (field : String) : List Write :=
  match df with
  | none => []
  | some t =>
    match lookupRow t field with
    | none => []
    | some vs => rowWrites (vs.take 3)

/-- Embeds one slot of `_calculate_current_ratio`
(src/Colab_Q_A_fin_re.py lines 484-513): the cell is written only when
`cl != 0` (true for NaN!); when written it holds `round(ca / cl, 2)`,
which is NaN when either operand is NaN.  The outer `Option` records
whether the cell is written at all; the inner one is the float value. -/
def currentRatioCell (ca cl : Option ℚ) : Option (Option ℚ) :=
  if pyNeZero cl then
    match ca, cl with
    | some a, some b => some (some (round2 (a / b)))
    | _, _ => some none
  else none

/-- Embeds one slot of `_calculate_gross_margin`
(src/Colab_Q_A_fin_re.py lines 548-579): the cell is written only when
`rev != 0` (true for NaN); when written it holds `gp / rev` (format
`'0.0%'`), which is NaN when either operand is NaN. -/
def grossMarginCell (rev gp : Option ℚ) : Option (Option ℚ) :=
  if pyNeZero rev then some (pyDiv gp rev) else none

/-- Embeds the component resolution of `_calculate_net_cash_flow`
(src/Colab_Q_A_fin_re.py lines 585-587):
`df.loc[name].values[:3] if name in df.index else [0, 0, 0]` — the
zero default applies only when the whole row is absent. -/
def rowOrZeros (df : Table) (name : String) : List (Option ℚ) :=
  match lookupRow df name with
  | some vs => vs.take 3
  | none => [some 0, some 0, some 0]

/-- The `zip`/sum loop of `_calculate_net_cash_flow`: Python's `zip`
truncates to the shortest list, and the float sum propagates NaN. -/
def zip3Sum : List (Option ℚ) → List (Option ℚ) → List (Option ℚ) → List (Option ℚ)
  | o :: os, b :: bs, c :: cs => pyAdd (pyAdd o b) c :: zip3Sum os bs cs
  | _, _, _ => []

/-- Embeds the slot values of `_calculate_net_cash_flow`
(src/Colab_Q_A_fin_re.py lines 581-610) for one (non-None) cash-flow
table; each resulting value is then rendered with `_format_currency`. -/
def netCashFlow (df : Table) : List (Option ℚ) :=
  zip3Sum (rowOrZeros df "Operating Cash Flow")
    (rowOrZeros df "Investing Cash Flow")
    (rowOrZeros df "Financing Cash Flow")

/-- The `FY {datetime.now().year - k}` header labels of
`create_excel_report` (src/Colab_Q_A_fin_re.py lines 93-95). -/
def fyLabel (year k : ℤ) : String := "FY " ++ toString (year - k)

/-- The fixed header writes of `create_excel_report`
(src/Colab_Q_A_fin_re.py lines 74-95): title, section label, scale
note, the three quarterly `Q` headers and the three annual FY headers,
the latter computed from the current clock year. -/
def headerCells (nowYear : ℤ) : List (String × Cell) :=
  [("A1", Cell.str "FINANCIAL STATEMENTS"),
   ("A3", Cell.str "Balance Sheet Data:"),
   ("B5", Cell.str "In Thousands"),
   ("C5", Cell.num (some 1000)),
   ("E5", Cell.str "Q"),
   ("G5", Cell.str "Q"),
   ("I5", Cell.str "Q"),
   ("K5", Cell.str (fyLabel nowYear 1)),
   ("M5", Cell.str (fyLabel nowYear 2)),
   ("O5", Cell.str (fyLabel nowYear 3))]

/-- The quarterly column letters `E` ‥ `J` of the balance-sheet block,
indexed by write slot. -/
def colLetter (i : Nat) : String := ["E", "F", "G", "H", "I", "J"].getD i "?"

/-- A slice of the grid produced by `create_excel_report`: the fixed
header cells (a function of the clock year) followed by the addressed
cells of the "Total Assets" row, which lands on worksheet row 13. -/
def reportSlice (qbs : Option Table) (nowYear : ℤ) : List (String × Cell) :=
  headerCells nowYear ++
    (addQuarterlyData qbs "Total Assets").map
      (fun w => (colLetter w.col ++ "13", w.cell))

end Colab

namespace FRG

/-- Embeds `calculate_percentage_change`
(src/financial_report_generator.py lines 136-140); the body is
identical to `_calculate_pct_change` of the Colab file. -/
def calculate_percentage_change (current previous : Option ℚ) : Option ℚ :=
  if previous = some 0 then some 0
  else
    match current, previous with
    | some c, some p => some ((c - p) / |p|)
    | _, _ => none

/-- Embeds `format_currency` (src/financial_report_generator.py lines
142-144): the bare `f"${value:,.0f}"`, with no special case for
negative, zero or NaN values.  Python renders a negative float as a
minus sign followed by the grouped magnitude, and NaN as `nan`. -/
def format_currency : Option ℚ → String
  | none => "$nan"
  | some v =>
    if v < 0 then "$-" ++ commaGroup (roundHalfEven (-v)).toNat
    else "$" ++ commaGroup (roundHalfEven v).toNat

/-- Embeds one item extraction of `get_balance_sheet_data`
(src/financial_report_generator.py lines 44-56):
`table.loc[name].tolist()[:3] if name in table.index else [0, 0, 0]`. -/
def itemOrZeros (t : Table) (name : String) : List (Option ℚ) :=
  match lookupRow t name with
  | some vs => vs.take 3
  | none => [some 0, some 0, some 0]

/-- Embeds one slot of the Current Ratio computation of `create_report`
(src/financial_report_generator.py lines 262-266):
`ca / cl if cl != 0 else 0` — a zero denominator yields the number 0. -/
def currentRatioSlot (ca cl : Option ℚ) : Option ℚ :=
  if pyNeZero cl then pyDiv ca cl else some 0

/-- Embeds one slot of the Quick Ratio computation of `create_report`
(src/financial_report_generator.py lines 275-283):
`(ca - inv) / cl if cl != 0 else 0`. -/
def quickRatioSlot (ca inv cl : Option ℚ) : Option ℚ :=
  if pyNeZero cl then pyDiv (pySub ca inv) cl else some 0

end FRG

/-- Example cash-flow table: the Operating row is present but its most
recent period is NaN, while Investing and Financing are fully present
(the spec's Scenario C). -/
def cfEx5 : Table :=
  [("Operating Cash Flow", [none, some 50, some 60]),
   ("Investing Cash Flow", [some (-10), some (-10), some (-10)]),
   ("Financing Cash Flow", [some 5, some 5, some 5])]

theorem zip3Sum_get (as bs cs : List (Option ℚ)) :
    ∀ (i : ℕ) (o b c : Option ℚ), as.get? i = some o → bs.get? i = some b →
      cs.get? i = some c →
      (Colab.zip3Sum as bs cs).get? i = some (pyAdd (pyAdd o b) c) := by
  induction as generalizing bs cs with
  | nil => intro i o b c ho _ _; simp at ho
  | cons a as ih =>
    intro i o b c ho hb hc
    cases bs with
    | nil => simp at hb
    | cons b' bs =>
      cases cs with
      | nil => simp at hc
      | cons c' cs =>
        cases i with
        | zero =>
          simp only [List.get?] at ho hb hc
          cases ho; cases hb; cases hc
          rfl
        | succ n =>
          simp only [List.get?] at ho hb hc
          simpa [Colab.zip3Sum] using ih bs cs n o b c ho hb hc

theorem rowWrites_delta (l : List (Option ℚ)) (w : Write)
    (hw : w ∈ Colab.rowWrites l) (hcol : w.col = 1 ∨ w.col = 3) :
    ∃ p, w.cell = Cell.num p ∧ w.fmt = Colab.deltaFmt p := by
  rcases l with _ | ⟨v0, _ | ⟨v1, _ | ⟨v2, rest⟩⟩⟩
  · simp [Colab.rowWrites] at hw
  · simp only [Colab.rowWrites, List.mem_singleton] at hw
    subst hw; rcases hcol with h | h <;> simp at h
  · simp only [Colab.rowWrites, List.mem_cons, List.not_mem_nil, or_false] at hw
    rcases hw with rfl | rfl <;> rcases hcol with h | h <;> simp at h
  · simp only [Colab.rowWrites, List.mem_cons, List.not_mem_nil, or_false] at hw
    rcases hw with rfl | rfl | rfl | rfl | rfl
    · rcases hcol with h | h <;> simp at h
    · rcases hcol with h | h <;> simp at h
    · rcases hcol with h | h <;> simp at h
    · exact ⟨_, rfl, rfl⟩
    · exact ⟨_, rfl, rfl⟩

/-- C9 (confirmed): for every numeric value `x`, including `x = 0`,
`pctChange(x, x) = 0`: an unchanged metric always yields a delta of
exactly zero. -/
theorem C9_pct_change_self (q : ℚ) :
    Colab.pctChange (some q) (some q) = some 0 := by
  by_cases h : q = 0
  · subst h; simp [Colab.pctChange]
  · simp [Colab.pctChange, h]

/-- C1 counterexample: with `current` missing and `previous = 0`, the
code returns the number 0, so a missing input does collapse to a
number, contradicting the claim's "missing iff at least one input is
missing". -/
theorem C1_counterexample :
    Colab.pctChange none (some 0) = some 0 ∧
      (some (0:ℚ) : Option ℚ) ≠ none := by
  exact ⟨rfl, by decide⟩

/-- C1 (amended): `pctChange` returns exactly 0 whenever
`previous == 0`, even when `current` is missing; when `previous ≠ 0`
the result is missing iff `current` or `previous` is missing, and when
both are present it equals `(current - previous) / abs(previous)`;
`calculate_percentage_change` of the second file is the same
function. -/
theorem C1_pct_change (c p : Option ℚ) :
    (p = some 0 → Colab.pctChange c p = some 0) ∧
    (p ≠ some 0 → (Colab.pctChange c p = none ↔ c = none ∨ p = none)) ∧
    (∀ x y : ℚ, y ≠ 0 →
      Colab.pctChange (some x) (some y) = some ((x - y) / |y|)) ∧
    FRG.calculate_percentage_change c p = Colab.pctChange c p := by
  refine ⟨?_, ?_, ?_, ?_⟩
  · intro h; subst h; simp [Colab.pctChange]
  · intro hp
    unfold Colab.pctChange
    rw [if_neg hp]
    cases c <;> cases p <;> simp
  · intro x y hy
    simp [Colab.pctChange, hy]
  · rfl

/-- C1 witness: the amended statement evaluated at concrete inputs. -/
theorem C1_pct_change_witness :
    Colab.pctChange (some 3) (some 0) = some 0 ∧
    (Colab.pctChange (some 3) (some 2) = none ↔
      (some (3:ℚ) : Option ℚ) = none ∨ (some (2:ℚ) : Option ℚ) = none) ∧
    Colab.pctChange (some 3) (some 2) = some (((3:ℚ) - 2) / |(2:ℚ)|) := by
  refine ⟨?_, ?_, ?_⟩
  · exact (C1_pct_change (some 3) (some 0)).1 rfl
  · exact (C1_pct_change (some 3) (some 2)).2.1 (by decide)
  · exact (C1_pct_change (some 3) (some 2)).2.2.1 3 2 (by norm_num)

/-- C10 (confirmed): for `previous ≠ 0` the delta equals
`(current - previous) / abs(previous)` in both implementations, and its
sign matches the direction of change: strictly positive iff
`current > previous` and strictly negative iff `current < previous`. -/
theorem C10_pct_change_sign (c p : ℚ) (hp : p ≠ 0) :
    Colab.pctChange (some c) (some p) = some ((c - p) / |p|) ∧
    FRG.calculate_percentage_change (some c) (some p) = some ((c - p) / |p|) ∧
    (0 < (c - p) / |p| ↔ p < c) ∧
    ((c - p) / |p| < 0 ↔ c < p) := by
  have habs : 0 < |p| := abs_pos.mpr hp
  refine ⟨?_, ?_, ?_, ?_⟩
  · simp [Colab.pctChange, hp]
  · simp [FRG.calculate_percentage_change, hp]
  · rw [lt_div_iff₀ habs, zero_mul, sub_pos]
  · rw [div_lt_iff₀ habs, zero_mul, sub_neg]

/-- C10 witness: the sign property evaluated at `current = 3`,
`previous = 2`. -/
theorem C10_pct_change_sign_witness :
    Colab.pctChange (some 3) (some 2) = some (((3:ℚ) - 2) / |(2:ℚ)|) ∧
    FRG.calculate_percentage_change (some 3) (some 2) =
      some (((3:ℚ) - 2) / |(2:ℚ)|) ∧
    (0 < ((3:ℚ) - 2) / |(2:ℚ)| ↔ (2:ℚ) < 3) ∧
    (((3:ℚ) - 2) / |(2:ℚ)| < 0 ↔ (3:ℚ) < 2) :=
  C10_pct_change_sign 3 2 (by norm_num)

/-- C2 counterexample: in `create_report` a Current Ratio (and Quick
Ratio) slot whose denominator is 0 is the numeric value 0, not a
distinguishable "undefined" marker. -/
theorem C2_counterexample :
    FRG.currentRatioSlot (some 100) (some 0) = some 0 ∧
    FRG.quickRatioSlot (some 100) (some 20) (some 0) = some 0 := by
  exact ⟨rfl, rfl⟩

/-- C2 (amended): in the Colab engine a zero denominator leaves the
ratio/margin cell unwritten and a missing (NaN) denominator produces a
NaN cell, so the numeric value 0 is never produced for an undefined
ratio; in `financial_report_generator.create_report`, however, a zero
denominator is coerced to the numeric ratio value 0. -/
theorem C2_undefined_ratio (ca gp : Option ℚ) :
    Colab.currentRatioCell ca (some 0) = none ∧
    Colab.currentRatioCell ca none = some none ∧
    Colab.grossMarginCell (some 0) gp = none ∧
    Colab.grossMarginCell none gp = some none ∧
    FRG.currentRatioSlot ca (some 0) = some 0 ∧
    FRG.quickRatioSlot ca gp (some 0) = some 0 := by
  refine ⟨?_, ?_, ?_, ?_, ?_, ?_⟩
  · cases ca <;> rfl
  · cases ca <;> rfl
  · rfl
  · cases gp <;> rfl
  · rfl
  · rfl

/-- C3 counterexample: in `get_balance_sheet_data` a line item that is
not a key of the table resolves to `[0, 0, 0]` — zeros, not three
missing sentinels. -/
theorem C3_counterexample :
    FRG.itemOrZeros [] "Inventory" = [some 0, some 0, some 0] ∧
    FRG.itemOrZeros [] "Inventory" ≠ [none, none, none] := by
  exact ⟨rfl, by decide⟩

/-- C3 (amended): in the Colab engine an absent table or unknown line
item produces no writes at all (all cells left blank, nothing raised),
and a row with only 2 periods gets its two leading value cells written
while the trailing value cell and both delta cells stay blank (the
internal IndexError is swallowed); in `financial_report_generator`, an
absent item instead resolves to the zeros `[0, 0, 0]`. -/
theorem C3_resolver (field : String) (t : Table) (v0 v1 : Option ℚ) :
    Colab.addQuarterlyData none field = [] ∧
    (lookupRow t field = none → Colab.addQuarterlyData (some t) field = []) ∧
    (lookupRow t field = some [v0, v1] →
      Colab.addQuarterlyData (some t) field =
        [⟨0, Cell.str (Colab.formatCurrency v0), NumFmt.general⟩,
         ⟨2, Cell.str (Colab.formatCurrency v1), NumFmt.general⟩]) ∧
    (lookupRow t field = none →
      FRG.itemOrZeros t field = [some 0, some 0, some 0]) := by
  refine ⟨rfl, ?_, ?_, ?_⟩
  · intro h; simp [Colab.addQuarterlyData, h]
  · intro h; simp [Colab.addQuarterlyData, h, Colab.rowWrites]
  · intro h; simp [FRG.itemOrZeros, h]

/-- C3 witness: the resolver behavior on a concrete one-row table with
two periods. -/
theorem C3_resolver_witness :
    Colab.addQuarterlyData (some [("Total Revenue", [some 5, some 4])])
        "Inventory" = [] ∧
    Colab.addQuarterlyData (some [("Total Revenue", [some 5, some 4])])
        "Total Revenue" =
      [⟨0, Cell.str (Colab.formatCurrency (some 5)), NumFmt.general⟩,
       ⟨2, Cell.str (Colab.formatCurrency (some 4)), NumFmt.general⟩] ∧
    FRG.itemOrZeros [("Total Revenue", [some 5, some 4])] "Inventory" =
      [some 0, some 0, some 0] := by
  refine ⟨?_, ?_, ?_⟩
  · exact (C3_resolver "Inventory" [("Total Revenue", [some 5, some 4])]
      none none).2.1 (by decide)
  · exact (C3_resolver "Total Revenue" [("Total Revenue", [some 5, some 4])]
      (some 5) (some 4)).2.2.1 (by decide)
  · exact (C3_resolver "Inventory" [("Total Revenue", [some 5, some 4])]
      none none).2.2.2 (by decide)

/-- C4 (confirmed): a numeric delta receives the `'0.00%'` 2-decimal
percentage format exactly when its absolute value is strictly below 10
(so 9.9999 renders as a percentage and 10.0 as a plain decimal), and
every delta cell placed by `_add_quarterly_data` or `_add_annual_data`
carries exactly this format for its own value. -/
theorem C4_delta_format :
    (∀ q : ℚ, Colab.deltaFmt (some q) = NumFmt.pct2 ↔ |q| < 10) ∧
    Colab.deltaFmt (some (99999/10000)) = NumFmt.pct2 ∧
    Colab.deltaFmt (some 10) = NumFmt.plain ∧
    (∀ (df : Option Table) (field : String) (w : Write),
      w ∈ Colab.addQuarterlyData df field → w.col = 1 ∨ w.col = 3 →
      ∃ p, w.cell = Cell.num p ∧ w.fmt = Colab.deltaFmt p) ∧
    (∀ (df : Option Table) (field : String) (w : Write),
      w ∈ Colab.addAnnualData df field → w.col = 1 ∨ w.col = 3 →
      ∃ p, w.cell = Cell.num p ∧ w.fmt = Colab.deltaFmt p) := by
  refine ⟨?_, ?_, ?_, ?_, ?_⟩
  · intro q
    by_cases h : |q| < 10 <;> simp [Colab.deltaFmt, h]
  · have h : |(99999/10000 : ℚ)| < 10 := by
      rw [abs_of_pos (by norm_num : (0:ℚ) < 99999/10000)]
      norm_num
    simp [Colab.deltaFmt, h]
  · have h : ¬ |(10 : ℚ)| < 10 := by
      rw [abs_of_pos (by norm_num : (0:ℚ) < 10)]
      norm_num
    simp [Colab.deltaFmt, h]
  · intro df field w hw hcol
    rcases df with _ | t
    · simp [Colab.addQuarterlyData] at hw
    · rcases hl : lookupRow t field with _ | vs
      · rw [Colab.addQuarterlyData, hl] at hw; simp at hw
      · rw [Colab.addQuarterlyData, hl] at hw
        exact rowWrites_delta _ w hw hcol
  · intro df field w hw hcol
    rcases df with _ | t
    · simp [Colab.addAnnualData] at hw
    · rcases hl : lookupRow t field with _ | vs
      · rw [Colab.addAnnualData, hl] at hw; simp at hw
      · rw [Colab.addAnnualData, hl] at hw
        exact rowWrites_delta _ w hw hcol

/-- C4 witness: the first delta cell of a concrete three-period row is
a numeric cell carrying the format chosen by the threshold rule. -/
theorem C4_delta_format_witness :
    ((⟨1, Cell.num (Colab.pctChange (some 10) (some 20)),
        Colab.deltaFmt (Colab.pctChange (some 10) (some 20))⟩ : Write) ∈
      Colab.addQuarterlyData
        (some [("Total Assets", [some 10, some 20, some 30])])
        "Total Assets") ∧
    (∃ p, (⟨1, Cell.num (Colab.pctChange (some 10) (some 20)),
        Colab.deltaFmt (Colab.pctChange (some 10) (some 20))⟩ : Write).cell =
          Cell.num p ∧
      (⟨1, Cell.num (Colab.pctChange (some 10) (some 20)),
        Colab.deltaFmt (Colab.pctChange (some 10) (some 20))⟩ : Write).fmt =
          Colab.deltaFmt p) := by
  have hmem : (⟨1, Cell.num (Colab.pctChange (some 10) (some 20)),
      Colab.deltaFmt (Colab.pctChange (some 10) (some 20))⟩ : Write) ∈
      Colab.addQuarterlyData
        (some [("Total Assets", [some 10, some 20, some 30])])
        "Total Assets" :=
    List.mem_cons_of_mem _ (List.mem_cons_of_mem _
      (List.mem_cons_of_mem _ (List.mem_cons_self _ _)))
  exact ⟨hmem, C4_delta_format.2.2.2.1
    (some [("Total Assets", [some 10, some 20, some 30])]) "Total Assets"
    _ hmem (Or.inl rfl)⟩

/-- C5 counterexample: with the Operating row present but NaN at the
most recent slot (the spec's Scenario C), the Net Cash Flow slot is
missing even though Investing and Financing are present there — the
claimed value would have been `-5`. -/
theorem C5_counterexample :
    Colab.netCashFlow cfEx5 = [none, some 45, some 55] ∧
    (Colab.rowOrZeros cfEx5 "Investing Cash Flow").get? 0 =
      some (some (-10)) ∧
    (Colab.rowOrZeros cfEx5 "Financing Cash Flow").get? 0 = some (some 5) := by
  refine ⟨?_, rfl, rfl⟩
  have h : Colab.netCashFlow cfEx5 =
      [pyAdd (pyAdd none (some (-10))) (some 5),
       pyAdd (pyAdd (some 50) (some (-10))) (some 5),
       pyAdd (pyAdd (some 60) (some (-10))) (some 5)] := rfl
  have e2 : pyAdd (pyAdd (some (50:ℚ)) (some (-10))) (some 5) = some 45 := by
    show some ((50:ℚ) + -10 + 5) = some 45
    norm_num
  have e3 : pyAdd (pyAdd (some (60:ℚ)) (some (-10))) (some 5) = some 55 := by
    show some ((60:ℚ) + -10 + 5) = some 55
    norm_num
  rw [h, e2, e3]
  rfl

/-- C5 (amended): a Net Cash Flow slot is the Python float sum of the
three resolved components, where a component whose entire row is absent
from the table is replaced by zeros; a component that is present but
missing (NaN) at a slot makes that slot's sum missing even when the
other components are present there. -/
theorem C5_net_cash_flow (df : Table) (i : ℕ) (o b c : Option ℚ)
    (ho : (Colab.rowOrZeros df "Operating Cash Flow").get? i = some o)
    (hb : (Colab.rowOrZeros df "Investing Cash Flow").get? i = some b)
    (hc : (Colab.rowOrZeros df "Financing Cash Flow").get? i = some c) :
    (Colab.netCashFlow df).get? i = some (pyAdd (pyAdd o b) c) := by
  unfold Colab.netCashFlow
  exact zip3Sum_get _ _ _ i o b c ho hb hc

/-- C5 witness: slot 1 of the Scenario-C table sums the three present
components. -/
theorem C5_net_cash_flow_witness :
    (Colab.netCashFlow cfEx5).get? 1 =
      some (pyAdd (pyAdd (some 50) (some (-10))) (some 5)) :=
  C5_net_cash_flow cfEx5 1 (some 50) (some (-10)) (some 5)
    (by decide) (by decide) (by decide)

/-- C6 counterexample: the set of cells written for the catalogued
"Total Assets" row depends on the data — a populated table yields five
writes (slots 0, 2, 4, 1, 3) while an absent table yields none, so grid
shape is not invariant under data completeness. -/
theorem C6_counterexample :
    (Colab.addQuarterlyData
        (some [("Total Assets", [some 10, some 20, some 30])])
        "Total Assets").map Write.col = [0, 2, 4, 1, 3] ∧
    (Colab.addQuarterlyData none "Total Assets").map Write.col = [] := by
  exact ⟨by decide, rfl⟩

/-- C6 (amended): the addresses a data row receives do vary with data
completeness, but only among four data-determined shapes: no cells
(absent table or item, or empty history), the first value cell only
(one period), the first two value cells (two periods), or all three
value cells plus both delta cells (three or more periods). -/
theorem C6_grid_shape (df : Option Table) (field : String) :
    (Colab.addQuarterlyData df field).map Write.col = [] ∨
    (Colab.addQuarterlyData df field).map Write.col = [0] ∨
    (Colab.addQuarterlyData df field).map Write.col = [0, 2] ∨
    (Colab.addQuarterlyData df field).map Write.col = [0, 2, 4, 1, 3] := by
  rcases df with _ | t
  · exact Or.inl rfl
  · rcases hl : lookupRow t field with _ | vs
    · exact Or.inl (by simp [Colab.addQuarterlyData, hl])
    · rcases vs with _ | ⟨a, _ | ⟨b, _ | ⟨c, rest⟩⟩⟩
      · exact Or.inl (by simp [Colab.addQuarterlyData, hl, Colab.rowWrites])
      · exact Or.inr (Or.inl
          (by simp [Colab.addQuarterlyData, hl, Colab.rowWrites]))
      · exact Or.inr (Or.inr (Or.inl
          (by simp [Colab.addQuarterlyData, hl, Colab.rowWrites])))
      · exact Or.inr (Or.inr (Or.inr
          (by simp [Colab.addQuarterlyData, hl, Colab.rowWrites])))

theorem roundHalfEven_val1234 : roundHalfEven (1234:ℚ) = 1234 := by
  have h : (1234:ℚ).floor = 1234 := by decide
  unfold roundHalfEven
  rw [h]
  norm_num

/-- C7 counterexample: `format_currency` of
`financial_report_generator` renders a negative value with a minus
sign, not in the claimed `"$(1,234)"` parenthesised style. -/
theorem C7_counterexample :
    FRG.format_currency (some (-1234)) = "$-1,234" ∧
    FRG.format_currency (some (-1234)) ≠ "$(1,234)" := by
  have h : FRG.format_currency (some (-1234)) =
      "$-" ++ commaGroup (roundHalfEven (-(-1234:ℚ))).toNat := by
    simp [FRG.format_currency, (by norm_num : (-1234:ℚ) < 0)]
  rw [neg_neg, roundHalfEven_val1234] at h
  have key : FRG.format_currency (some (-1234)) = "$-1,234" := by
    rw [h]; decide
  exact ⟨key, by rw [key]; decide⟩

/-- C7 (amended): the Colab `_format_currency` follows the claimed
scheme — `"$1,234"`-style for positive values, `"$(1,234)"`-style for
negative values, and exactly `"$0"` for both zero and missing — while
`format_currency` of `financial_report_generator` renders negatives as
`"$-1,234"` and missing as `"$nan"`. -/
theorem C7_currency_format (v : ℚ) :
    Colab.formatCurrency none = "$0" ∧
    Colab.formatCurrency (some 0) = "$0" ∧
    Colab.formatCurrency (some 1234) = "$1,234" ∧
    Colab.formatCurrency (some (-1234)) = "$(1,234)" ∧
    (v < 0 → ∃ s, Colab.formatCurrency (some v) = "$(" ++ s ++ ")") ∧
    (0 < v → Colab.formatCurrency (some v) =
      "$" ++ commaGroup (roundHalfEven v).toNat) ∧
    FRG.format_currency (some (-1234)) = "$-1,234" ∧
    FRG.format_currency none = "$nan" := by
  refine ⟨rfl, ?_, ?_, ?_, ?_, ?_, ?_, rfl⟩
  · norm_num [Colab.formatCurrency]
  · have h : Colab.formatCurrency (some 1234) =
        "$" ++ commaGroup (roundHalfEven (1234:ℚ)).toNat := by
      norm_num [Colab.formatCurrency]
    rw [h, roundHalfEven_val1234]
    decide
  · have habs : |(-1234:ℚ)| = 1234 := by
      rw [abs_of_neg (by norm_num : (-1234:ℚ) < 0)]
      norm_num
    have h : Colab.formatCurrency (some (-1234)) =
        "$(" ++ commaGroup (roundHalfEven |(-1234:ℚ)|).toNat ++ ")" := by
      norm_num [Colab.formatCurrency]
    rw [h, habs, roundHalfEven_val1234]
    decide
  · intro hv
    refine ⟨commaGroup (roundHalfEven |v|).toNat, ?_⟩
    simp [Colab.formatCurrency, hv.ne, hv]
  · intro hv
    simp [Colab.formatCurrency, hv.ne', not_lt.mpr hv.le]
  · have h : FRG.format_currency (some (-1234)) =
        "$-" ++ commaGroup (roundHalfEven (-(-1234:ℚ))).toNat := by
      simp [FRG.format_currency, (by norm_num : (-1234:ℚ) < 0)]
    rw [neg_neg, roundHalfEven_val1234] at h
    rw [h]
    decide

/-- C7 witness: the general negative and positive cases evaluated at
concrete values. -/
theorem C7_currency_format_witness :
    (∃ s, Colab.formatCurrency (some (-5)) = "$(" ++ s ++ ")") ∧
    Colab.formatCurrency (some 7) =
      "$" ++ commaGroup (roundHalfEven 7).toNat := by
  refine ⟨?_, ?_⟩
  · exact (C7_currency_format (-5)).2.2.2.2.1 (by norm_num)
  · exact (C7_currency_format 7).2.2.2.2.2.1 (by norm_num)

/-- C8 counterexample: two runs on the identical statement input (here:
no quarterly balance sheet at all) but in different clock years produce
different grid content, because the FY header cells embed
`datetime.now().year`. -/
theorem C8_counterexample :
    Colab.reportSlice none 2025 ≠ Colab.reportSlice none 2026 := by
  decide

/-- C8 (amended): every grid cell other than the FY header cells
(K5, M5, O5) is a pure function of the statement input alone — two runs
on identical input agree on all of them regardless of the clock year;
only the FY headers depend on run-to-run state. -/
theorem C8_pure_given_clock (qbs : Option Table) (y₁ y₂ : ℤ) :
    (Colab.reportSlice qbs y₁).filter
        (fun cl => !(["K5", "M5", "O5"].contains cl.1)) =
      (Colab.reportSlice qbs y₂).filter
        (fun cl => !(["K5", "M5", "O5"].contains cl.1)) := by
  rfl
